import Mathlib

/-!
Verification development for the food-review restaurant-finder backend.

The Python sources are shallowly embedded:
  * JSON payloads from external services become the `JsonValue` inductive;
    Python dicts become association lists with first-key-wins lookup and
    in-place-replacing insertion, matching dict semantics for the
    single-binding objects produced by JSON parsing.
  * Python floats are modelled as rationals (every float literal appearing
    in the sources is a decimal fraction); the trigonometric geodesy code
    is modelled over the reals.
  * Code that can raise returns `Except`/`Option`; external HTTP traffic is
    passed in explicitly as data (a response value per request the code
    issues), so each handler becomes a pure function of its inputs and of
    the upstream responses.
-/

/-- A parsed JSON document, as handed around in the Python sources as
`Dict[str, Any]` / `Any`.  Python distinguishes `int` and `float` (for
example via `isinstance(price_level, int)`), so both constructors are kept. -/
inductive JsonValue where
  | null : JsonValue
  | bool (b : Bool) : JsonValue
  | int (n : ℤ) : JsonValue
  | float (q : ℚ) : JsonValue
  | str (s : String) : JsonValue
  | arr (xs : List JsonValue) : JsonValue
  | obj (fields : List (String × JsonValue)) : JsonValue

/-- Lookup in a Python dict modelled as an association list (`d.get(k)` /
`d[k]`, returning `none` for a missing key). -/
def assocLookup {α : Type} : List (String × α) → String → Option α
  | [], _ => none
  | (k, v) :: rest, key => if k = key then some v else assocLookup rest key

/-- `d.get(k, dflt)` on a Python dict. -/
def dictGetD {α : Type} (d : List (String × α)) (k : String) (dflt : α) : α :=
  (assocLookup d k).getD dflt

/-- `d[k] = v` on a Python dict: replace the existing binding, else append. -/
def dictSet {α : Type} : List (String × α) → String → α → List (String × α)
  | [], k, v => [(k, v)]
  | (k', v') :: rest, k, v =>
    if k' = k then (k, v) :: rest else (k', v') :: dictSet rest k v

/-- Digit run to a natural number (helper for the `float(...)` model). -/
def digitsToNat (cs : List Char) : ℕ :=
  cs.foldl (fun acc c => acc * 10 + (c.toNat - 48)) 0

/-- Python `min(a, b)` on two numbers (keeps the first argument on ties). -/
def pyMin (a b : ℚ) : ℚ := if b < a then b else a

/-- Python `max(a, b)` on two numbers (keeps the first argument on ties). -/
def pyMax (a b : ℚ) : ℚ := if a < b then b else a

/-- The whitespace stripping `float(s)` performs on its string argument
(modelled for the space character). -/
def stripSpaces (cs : List Char) : List Char :=
  ((cs.dropWhile (fun c => c = ' ')).reverse.dropWhile
    (fun c => c = ' ')).reverse

/-- Model of the Python built-in `float(s)` on strings, restricted to the
optionally signed decimal forms `digits`, `digits.digits`, `.digits`,
`digits.` that the sources feed it (exponent, `inf`, `nan` and underscore
forms are outside the modelled subset).  `none` models `ValueError`. -/
def parseFloatStr (s : String) : Option ℚ :=
  let cs := stripSpaces s.toList
  let signed : ℚ × List Char :=
    match cs with
    | [] => (1, [])
    | c :: rest =>
      if c = '-' then (-1, rest)
      else if c = '+' then (1, rest) else (1, c :: rest)
  let sgn := signed.1
  match (signed.2).span Char.isDigit with
  | (intDigits, rest) =>
    match rest with
    | [] =>
      if intDigits.isEmpty then none
      else some (sgn * (digitsToNat intDigits : ℚ))
    | c :: fracDigits =>
      if c = '.' then
        if fracDigits.all Char.isDigit ∧ (intDigits ≠ [] ∨ fracDigits ≠ []) then
          some (sgn * ((digitsToNat intDigits : ℚ) +
            (digitsToNat fracDigits : ℚ) / (10 ^ fracDigits.length)))
        else none
      else none

/-- Model of the Python built-in `float(v)` on an arbitrary JSON value.
`none` models the `ValueError`/`TypeError` the call raises on
non-numeric input (Python `bool` is numeric: `float(True) == 1.0`). -/
def pyFloat : JsonValue → Option ℚ
  | .int n => some (n : ℚ)
  | .float q => some q
  | .bool b => some (if b then 1 else 0)
  | .str s => parseFloatStr s
  | _ => none

/-- The numeric value a JSON value carries for Python comparison and
arithmetic operators (`rating >= 4.5`, `rating * 2`).  `none` models the
`TypeError` those operators raise on non-numeric operands. -/
def pyNumVal : JsonValue → Option ℚ
  | .int n => some (n : ℚ)
  | .float q => some q
  | .bool b => some (if b then 1 else 0)
  | _ => none

/-- Model of the Python built-in `int(q)` on a number: truncation toward
zero. -/
def pyTrunc (q : ℚ) : ℤ :=
  if 0 ≤ q then ⌊q⌋ else ⌈q⌉

/-- Rendering used where the sources interpolate a value into an f-string
(`str(v)`).  The exact digit strings Python produces for floats are not
reproduced; both analysis-service embeddings share this one function, which
is all the claims depend on. -/
def ratDecimalRepr (q : ℚ) : String :=
  if q.den = 1 then toString q.num ++ ".0" else toString q

/-- Python `str(v)` for the values the fallback analysis interpolates. -/
def pyStrOf : JsonValue → String
  | .null => "None"
  | .bool b => if b then "True" else "False"
  | .int n => toString n
  | .float q => ratDecimalRepr q
  | .str s => s
  | .arr _ => "[list]"
  | .obj _ => "[dict]"

/-- The `RestaurantAnalysis` pydantic model (identical field lists in
`ai_analysis_service.py` and `backend/ai_analysis_service.py`; the backend
copy additionally constrains `confidence_score` to [0, 1]). -/
structure RestaurantAnalysis where
  overall_rating : String
  overall_summary : String
  food_quality : List (String × JsonValue)
  service_quality : List (String × JsonValue)
  atmosphere : List (String × JsonValue)
  value_for_money : List (String × JsonValue)
  key_highlights : List String
  potential_concerns : List String
  recommendation : String
  best_for : List String
  price_range_assessment : String
  confidence_score : ℚ

/-- The default category block `_validate_analysis_dict` substitutes for a
missing or non-dict category field. -/
def defaultCategoryBlock : JsonValue :=
  .obj [("score", .str "5"), ("highlights", .str "Not analyzed"),
        ("concerns", .str "No data available")]

/-- One iteration of the string-field loop of `_validate_analysis_dict`:
keep the field if present and a `str`, else overwrite with "Not available". -/
def ensureStrField (d : List (String × JsonValue)) (k : String) :
    List (String × JsonValue) :=
  match assocLookup d k with
  | some (.str _) => d
  | _ => dictSet d k (.str "Not available")

/-- One iteration of the list-field loop of `_validate_analysis_dict`. -/
def ensureListField (d : List (String × JsonValue)) (k : String) :
    List (String × JsonValue) :=
  match assocLookup d k with
  | some (.arr _) => d
  | _ => dictSet d k (.arr [])

/-- One iteration of the dict-field loop of `_validate_analysis_dict`. -/
def ensureDictField (d : List (String × JsonValue)) (k : String) :
    List (String × JsonValue) :=
  match assocLookup d k with
  | some (.obj _) => d
  | _ => dictSet d k defaultCategoryBlock

/-- The confidence_score step of `_validate_analysis_dict`: only touches the
dict when the key is present; coerces with `float(...)` and clamps via
`max(0.0, min(1.0, c))`, falling back to `0.5` when the coercion raises. -/
def ensureConfidence (d : List (String × JsonValue)) :
    List (String × JsonValue) :=
  match assocLookup d "confidence_score" with
  | none => d
  | some v =>
    match pyFloat v with
    | some c => dictSet d "confidence_score" (.float (pyMax 0 (pyMin 1 c)))
    | none => dictSet d "confidence_score" (.float (1 / 2))

/-- `AIAnalysisService._validate_analysis_dict`
(`backend/ai_analysis_service.py`), the field loops unrolled over the fixed
field lists of the source. -/
def validate_analysis_dict (d : List (String × JsonValue)) :
    List (String × JsonValue) :=
  let d1 := ensureConfidence d
  let d2 := ensureStrField d1 "overall_rating"
  let d3 := ensureStrField d2 "overall_summary"
  let d4 := ensureStrField d3 "recommendation"
  let d5 := ensureStrField d4 "price_range_assessment"
  let d6 := ensureListField d5 "key_highlights"
  let d7 := ensureListField d6 "potential_concerns"
  let d8 := ensureListField d7 "best_for"
  let d9 := ensureDictField d8 "food_quality"
  let d10 := ensureDictField d9 "service_quality"
  let d11 := ensureDictField d10 "atmosphere"
  ensureDictField d11 "value_for_money"

/-- Elementwise `str` extraction for a pydantic `List[str]` field. -/
def allStrings : List JsonValue → Option (List String)
  | [] => some []
  | .str s :: rest => (allStrings rest).map (fun l => s :: l)
  | _ => none

/-- A pydantic `str` field taken from the keyword-argument dict. -/
def getStrField (d : List (String × JsonValue)) (k : String) : Option String :=
  match assocLookup d k with
  | some (.str s) => some s
  | _ => none

/-- A pydantic `List[str]` field taken from the keyword-argument dict. -/
def getListField (d : List (String × JsonValue)) (k : String) :
    Option (List String) :=
  match assocLookup d k with
  | some (.arr xs) => allStrings xs
  | _ => none

/-- A pydantic `Dict[str, Any]` field taken from the keyword-argument dict. -/
def getObjField (d : List (String × JsonValue)) (k : String) :
    Option (List (String × JsonValue)) :=
  match assocLookup d k with
  | some (.obj fs) => some fs
  | _ => none

/-- The backend `confidence_score : float = Field(..., ge=0.0, le=1.0)`
field: numeric coercion plus the range constraint. -/
def getConfidenceField (d : List (String × JsonValue)) : Option ℚ :=
  match assocLookup d "confidence_score" with
  | some v =>
    match pyFloat v with
    | some q => if 0 ≤ q ∧ q ≤ 1 then some q else none
    | none => none
  | none => none

/-- `RestaurantAnalysis(**analysis_dict)`: pydantic model construction from
the validated dict.  `none` models the `ValidationError` raised when a
required field is missing or of an unusable shape (which the caller
`analyze_restaurant` catches with its blanket `except`, returning `None` and
so routing the request to the deterministic fallback). -/
def restaurantAnalysisOfDict (d : List (String × JsonValue)) :
    Option RestaurantAnalysis := do
  let orat ← getStrField d "overall_rating"
  let osum ← getStrField d "overall_summary"
  let fq ← getObjField d "food_quality"
  let sq ← getObjField d "service_quality"
  let at_ ← getObjField d "atmosphere"
  let vfm ← getObjField d "value_for_money"
  let kh ← getListField d "key_highlights"
  let pc ← getListField d "potential_concerns"
  let rec_ ← getStrField d "recommendation"
  let bf ← getListField d "best_for"
  let pra ← getStrField d "price_range_assessment"
  let cs ← getConfidenceField d
  pure { overall_rating := orat, overall_summary := osum,
         food_quality := fq, service_quality := sq, atmosphere := at_,
         value_for_money := vfm, key_highlights := kh,
         potential_concerns := pc, recommendation := rec_, best_for := bf,
         price_range_assessment := pra, confidence_score := cs }

/-- The post-parse stage of `analyze_restaurant`
(`backend/ai_analysis_service.py`): given a model reply that did parse as a
JSON object, run `_validate_analysis_dict` and construct the pydantic model.
`none` means the engine falls through to `create_fallback_analysis`. -/
def validateAndConstruct (d : List (String × JsonValue)) :
    Option RestaurantAnalysis :=
  restaurantAnalysisOfDict (validate_analysis_dict d)

/-- The shared `price_descriptions` table of both `create_fallback_analysis`
copies, as a lookup on integer keys. -/
def priceFallbackDesc (n : ℤ) : Option String :=
  if n = 1 then some "budget-friendly"
  else if n = 2 then some "moderately priced"
  else if n = 3 then some "upscale"
  else if n = 4 then some "fine dining"
  else none

/-- `price_descriptions.get(price_level)` in `ai_analysis_service.py`: a
Python dict lookup keyed by numeric equality (so `2.0` and `True` hit the
integer keys), raising `TypeError` on unhashable keys. -/
def priceKeyDesc : JsonValue → Except String (Option String)
  | .arr _ => .error "TypeError: unhashable type"
  | .obj _ => .error "TypeError: unhashable type"
  | .int n => .ok (priceFallbackDesc n)
  | .float q => .ok (if q.den = 1 then priceFallbackDesc q.num else none)
  | .bool b => .ok (priceFallbackDesc (if b then 1 else 0))
  | .null => .ok none
  | .str _ => .ok none

/-- The identical `rating` threshold chain of both fallback copies. -/
def fallbackOverallRating (q : ℚ) : String :=
  if q ≥ 9 / 2 then "Excellent"
  else if q ≥ 4 then "Very Good"
  else if q ≥ 7 / 2 then "Good"
  else if q ≥ 3 then "Fair"
  else "Poor"

/-- `AIAnalysisService.create_fallback_analysis` of `ai_analysis_service.py`.
The `Except` error models the `TypeError` Python raises when a non-numeric
rating reaches `rating >= 4.5`, or an unhashable price level reaches the
dict lookup. -/
def create_fallback_analysis (restaurant_data : List (String × JsonValue)) :
    Except String RestaurantAnalysis :=
  let rating := dictGetD restaurant_data "rating" (.int 0)
  let total_ratings := dictGetD restaurant_data "total_ratings" (.int 0)
  let price_level := dictGetD restaurant_data "price_level" (.int 2)
  match pyNumVal rating with
  | none => .error "TypeError: rating comparison"
  | some q =>
    let overall_rating := fallbackOverallRating q
    match priceKeyDesc price_level with
    | .error e => .error e
    | .ok descOpt =>
      let price_desc := descOpt.getD "moderately priced"
      let rating_s := pyStrOf rating
      let total_s := pyStrOf total_ratings
      let score := JsonValue.int (pyTrunc (q * 2))
      .ok { overall_rating := overall_rating,
            overall_summary := "This " ++ price_desc ++
              " restaurant has a " ++ rating_s ++
              "/5 star rating based on " ++ total_s ++ " reviews.",
            food_quality := [("score", score),
              ("highlights", .str "Based on customer ratings"),
              ("concerns", .str "Limited analysis available")],
            service_quality := [("score", score),
              ("highlights", .str "Based on overall ratings"),
              ("concerns", .str "No specific service data")],
            atmosphere := [("score", score),
              ("highlights", .str "Customer-rated experience"),
              ("concerns", .str "No detailed atmosphere data")],
            value_for_money := [("score", .int 7),
              ("assessment", .str ("Appears to offer good value in the " ++
                price_desc ++ " category"))],
            key_highlights := [rating_s ++ "/5 star rating",
              total_s ++ " customer reviews", price_desc ++ " pricing"],
            potential_concerns :=
              ["Limited analysis without detailed reviews"],
            recommendation := "Consider visiting if you enjoy " ++
              price_desc ++ " dining options",
            best_for := ["General dining"],
            price_range_assessment := "Pricing appears " ++ price_desc ++
              " based on Google data",
            confidence_score := 3 / 10 }

/-- `AIAnalysisService.create_fallback_analysis` of
`backend/ai_analysis_service.py`: additionally coerces string ratings with
`float(...)` (0 on `ValueError`), handles string/int price levels
separately (`isinstance(price_level, int)` also accepts Python bools), and
stores the category scores as decimal strings via `str(int(rating * 2))`. -/
def backend_create_fallback_analysis
    (restaurant_data : List (String × JsonValue)) :
    Except String RestaurantAnalysis :=
  let rating0 := dictGetD restaurant_data "rating" (.int 0)
  let total_ratings := dictGetD restaurant_data "total_ratings" (.int 0)
  let price_level := dictGetD restaurant_data "price_level" (.int 2)
  let rating : JsonValue :=
    match rating0 with
    | .str s =>
      match parseFloatStr s with
      | some q => .float q
      | none => .int 0
    | v => v
  match pyNumVal rating with
  | none => .error "TypeError: rating comparison"
  | some q =>
    let overall_rating := fallbackOverallRating q
    let price_desc :=
      match price_level with
      | .str s =>
        if s ≠ "" ∧ s.toList.all Char.isDigit then
          (priceFallbackDesc (digitsToNat s.toList : ℤ)).getD
            "moderately priced"
        else s.toLower
      | .int n => (priceFallbackDesc n).getD "moderately priced"
      | .bool b =>
        (priceFallbackDesc (if b then 1 else 0)).getD "moderately priced"
      | _ => "moderately priced"
    let rating_s := pyStrOf rating
    let total_s := pyStrOf total_ratings
    let score := JsonValue.str (toString (pyTrunc (q * 2)))
    .ok { overall_rating := overall_rating,
          overall_summary := "This " ++ price_desc ++
            " restaurant has a " ++ rating_s ++
            "/5 star rating based on " ++ total_s ++ " reviews.",
          food_quality := [("score", score),
            ("highlights", .str "Based on customer ratings"),
            ("concerns", .str "Limited analysis available")],
          service_quality := [("score", score),
            ("highlights", .str "Based on overall ratings"),
            ("concerns", .str "No specific service data")],
          atmosphere := [("score", score),
            ("highlights", .str "Customer-rated experience"),
            ("concerns", .str "No detailed atmosphere data")],
          value_for_money := [("score", .str "7"),
            ("assessment", .str ("Appears to offer good value in the " ++
              price_desc ++ " category"))],
          key_highlights := [rating_s ++ "/5 star rating",
            total_s ++ " customer reviews", price_desc ++ " pricing"],
          potential_concerns :=
            ["Limited analysis without detailed reviews"],
          recommendation := "Consider visiting if you enjoy " ++
            price_desc ++ " dining options",
          best_for := ["General dining"],
          price_range_assessment := "Pricing appears " ++ price_desc ++
            " based on Google data",
          confidence_score := 3 / 10 }

/-- Drop the "score" binding of a category block (used to compare the two
fallback implementations on everything except the score representation). -/
def dropScoreKey (l : List (String × JsonValue)) : List (String × JsonValue) :=
  l.filter (fun kv => kv.1 ≠ "score")

/-- An analysis with the four category score bindings removed. -/
def eraseScores (a : RestaurantAnalysis) : RestaurantAnalysis :=
  { a with food_quality := dropScoreKey a.food_quality,
           service_quality := dropScoreKey a.service_quality,
           atmosphere := dropScoreKey a.atmosphere,
           value_for_money := dropScoreKey a.value_for_money }

/-- The `LocationData` pydantic model of `location_service.py`. -/
structure LocationData where
  latitude : ℝ
  longitude : ℝ
  accuracy : Option ℝ := none
  city : Option String := none
  state : Option String := none
  country : Option String := none
  zip_code : Option String := none
  source : String

/-- One raw result record of the Google geocoding API, with the two fields
`reverse_geocode` projects out of it. -/
structure GeoApiResult where
  formatted_address : Option String := none
  place_id : Option String := none

/-- The body of a geocoding API response: a status string and raw results. -/
structure GeoApiResponse where
  status : String
  results : List GeoApiResult

/-- `LocationService.reverse_geocode`.  `hasKey` is whether
`GOOGLE_PLACES_API_KEY` is configured; `api = none` models a transport
exception on the HTTP call, which the blanket `except` maps to `None`.
On success the returned dict holds exactly the two keys
"formatted_address" and "place_id". -/
def reverse_geocode (hasKey : Bool) (api : Option GeoApiResponse) :
    Option (List (String × String)) :=
  if hasKey then
    match api with
    | none => none
    | some data =>
      match data.results with
      | [] => none
      | r :: _ =>
        if data.status = "OK" then
          some [("formatted_address", r.formatted_address.getD ""),
                ("place_id", r.place_id.getD "")]
        else none
  else none

/-- `LocationService.get_user_location`.  The three upstream interactions the
method can perform are passed in as data: `reverseResult` is what
`reverse_geocode(lat, lng)` would return, `geocodeResult` what
`geocode_address(address)` would return, and `ipResult` what
`get_location_from_ip(ip_address)` would return.  Python truthiness makes an
empty address string skip the geocoding branch. -/
def get_user_location (reverseResult : Option (List (String × String)))
    (geocodeResult : Option LocationData) (ipResult : Option LocationData)
    (ip_address : Option String) (address : Option String)
    (lat lng : Option ℝ) : Option LocationData :=
  let _ := ip_address
  match lat, lng with
  | some la, some ln =>
    some { latitude := la, longitude := ln,
           city := match reverseResult with
                   | some d => assocLookup d "city"
                   | none => none,
           source := "user_provided" }
  | _, _ =>
    let viaIp := ipResult
    match address with
    | some a =>
      if a = "" then viaIp
      else
        match geocodeResult with
        | some loc => some loc
        | none => viaIp
    | none => viaIp

/-- `math.radians` as used by the haversine code. -/
noncomputable def pyRadians (x : ℝ) : ℝ := x * Real.pi / 180

/-- `calculate_distance` of `main.py` (the same formula, with the same Earth
radius 3959 miles, appears as `LocationService.calculate_distance` in
`location_service.py`): haversine distance in miles. -/
noncomputable def calculate_distance (lat1 lon1 lat2 lon2 : ℝ) : ℝ :=
  let R : ℝ := 3959
  let lat1_rad := pyRadians lat1
  let lon1_rad := pyRadians lon1
  let lat2_rad := pyRadians lat2
  let lon2_rad := pyRadians lon2
  let dlat := lat2_rad - lat1_rad
  let dlon := lon2_rad - lon1_rad
  let a := Real.sin (dlat / 2) ^ 2 +
    Real.cos lat1_rad * Real.cos lat2_rad * Real.sin (dlon / 2) ^ 2
  let c := 2 * Real.arcsin (Real.sqrt a)
  R * c

/-- Python `round(x, 2)`: rounding to two decimals.  (Python rounds exact
ties to even, Mathlib `round` rounds them up; no value in this development
sits on an exact tie.) -/
noncomputable def pyRound2 (x : ℝ) : ℚ :=
  ((round (x * 100) : ℤ) : ℚ) / 100

/-- One raw place record of a nearby-search response, with the fields
`format_restaurant_data` reads (absent fields model missing JSON keys). -/
structure RawPlace where
  place_id : Option String := none
  name : Option String := none
  vicinity : Option String := none
  lat : Option ℝ := none
  lng : Option ℝ := none
  rating : Option ℚ := none

/-- The `Restaurant` pydantic model of `main.py`, restricted to the fields
the search pipeline computes with (`distance_miles` is always set by
`format_restaurant_data` before a `Restaurant` enters the result list). -/
structure Restaurant where
  place_id : String
  name : String
  address : String
  latitude : ℝ
  longitude : ℝ
  rating : Option ℚ
  distance_miles : ℚ

/-- `format_restaurant_data` of `main.py` (photo-URL assembly elided: the
claims never mention photos). -/
noncomputable def format_restaurant_data (user_lat user_lng : ℝ)
    (p : RawPlace) : Restaurant :=
  let restaurant_lat := p.lat.getD 0
  let restaurant_lng := p.lng.getD 0
  let distance := calculate_distance user_lat user_lng
    restaurant_lat restaurant_lng
  { place_id := p.place_id.getD "",
    name := p.name.getD "Unknown",
    address := p.vicinity.getD "Address not available",
    latitude := restaurant_lat,
    longitude := restaurant_lng,
    rating := p.rating,
    distance_miles := pyRound2 distance }

/-- Body of one nearby-search response page. -/
structure PageResponse where
  status : String
  results : List RawPlace
  next_page_token : Option String := none

/-- Outcome of one HTTP round trip of the paginator: either an
`httpx.HTTPError` (transport failure or non-2xx raised by
`raise_for_status`), or a decoded response body. -/
inductive FetchOutcome where
  | err : FetchOutcome
  | page (resp : PageResponse) : FetchOutcome

/-- The error outcomes of `find_restaurants` as surfaced to its caller:
`fetchFailed` is the `except httpx.HTTPError` path
(HTTP 500, "Failed to fetch restaurant data"); `internalError` is the
blanket `except Exception` path (HTTP 500, "Internal server error"), which
is what a first-page non-OK Google status ends up as, because the
`HTTPException(400, ...)` raised for it inside the `try` block is itself
caught by the blanket handler. -/
inductive SearchError where
  | fetchFailed : SearchError
  | internalError : SearchError

/-- The per-page result loop of `find_restaurants`: stop once `max_results`
is reached, keep a place when its rating (default 0) passes `min_rating`. -/
noncomputable def processPlaces (user_lat user_lng : ℝ) (min_rating : ℚ)
    (max_results : ℕ) :
    List Restaurant → List RawPlace → List Restaurant
  | acc, [] => acc
  | acc, p :: rest =>
    if max_results ≤ acc.length then acc
    else if p.rating.getD 0 ≥ min_rating then
      processPlaces user_lat user_lng min_rating max_results
        (acc ++ [format_restaurant_data user_lat user_lng p]) rest
    else processPlaces user_lat user_lng min_rating max_results acc rest

/-- The continuation-page `while` loop of `find_restaurants`.  `outcomes`
lists the successive upstream responses to the continuation requests the
loop issues (the upstream interaction is finite, which also makes the
loop well-founded here).  A transport error aborts the whole search via
`except httpx.HTTPError`; a non-OK page status only `break`s the loop. -/
noncomputable def fetchPages (user_lat user_lng : ℝ) (min_rating : ℚ)
    (max_results : ℕ) :
    List FetchOutcome → Option String → List Restaurant →
    Except SearchError (List Restaurant)
  | _, none, acc => .ok acc
  | [], some _, acc => .ok acc
  | o :: rest, some _, acc =>
    if max_results ≤ acc.length then .ok acc
    else
      match o with
      | .err => .error .fetchFailed
      | .page resp =>
        if resp.status = "OK" then
          fetchPages user_lat user_lng min_rating max_results rest
            resp.next_page_token
            (processPlaces user_lat user_lng min_rating max_results acc
              resp.results)
        else .ok acc

/-- The sort key of `restaurants.sort(key=lambda r: (r.distance_miles or
999, -(r.rating or 0)))`.  Python `or` substitutes the default not only for
`None` but for any falsy value, so a `0.0` distance or rating also takes the
default. -/
def sortKey (r : Restaurant) : ℚ × ℚ :=
  ((if r.distance_miles = 0 then 999 else r.distance_miles),
   -(match r.rating with
     | none => 0
     | some v => if v = 0 then 0 else v))

/-- Lexicographic comparison of Python sort-key tuples. -/
def keyLE (a b : ℚ × ℚ) : Prop :=
  a.1 < b.1 ∨ (a.1 = b.1 ∧ a.2 ≤ b.2)

instance (a b : ℚ × ℚ) : Decidable (keyLE a b) := by
  unfold keyLE; infer_instance

/-- The ordering `list.sort(key=...)` sorts the result list by. -/
def restLE (r1 r2 : Restaurant) : Prop :=
  keyLE (sortKey r1) (sortKey r2)

instance (r1 r2 : Restaurant) : Decidable (restLE r1 r2) := by
  unfold restLE; infer_instance

/-- `find_restaurants` of `main.py`.  The upstream traffic is explicit:
`first` is the outcome of the initial nearby-search request and `more` the
outcomes of the successive continuation requests.  A transport error on any
request maps to `fetchFailed`; a non-OK status on the first page raises
`HTTPException(400, ...)` which the blanket handler turns into
`internalError`; a non-OK status on a later page only ends pagination.
The accumulated list is finally sorted by the distance/rating key. -/
noncomputable def find_restaurants (lat lng : ℝ) (radius : ℚ)
    (min_rating : ℚ) (max_results : ℕ) (first : FetchOutcome)
    (more : List FetchOutcome) : Except SearchError (List Restaurant) :=
  let _radius_meters : ℤ := pyTrunc (radius * (160934 / 100))
  match first with
  | .err => .error .fetchFailed
  | .page resp =>
    if resp.status = "OK" then
      let firstBatch := processPlaces lat lng min_rating max_results []
        resp.results
      match fetchPages lat lng min_rating max_results more
          resp.next_page_token firstBatch with
      | .error e => .error e
      | .ok restaurants => .ok (List.insertionSort restLE restaurants)
    else .error .internalError

/-! Association-list (Python dict) lemmas. -/

theorem assocLookup_dictSet_self {α : Type} (d : List (String × α))
    (k : String) (v : α) : assocLookup (dictSet d k v) k = some v := by
  induction d with
  | nil => simp [dictSet, assocLookup]
  | cons kv rest ih =>
    obtain ⟨k', v'⟩ := kv
    by_cases h : k' = k
    · simp [dictSet, assocLookup, h]
    · simp [dictSet, assocLookup, h, ih]

theorem assocLookup_dictSet_ne {α : Type} (d : List (String × α))
    (k k2 : String) (v : α) (h : k ≠ k2) :
    assocLookup (dictSet d k v) k2 = assocLookup d k2 := by
  induction d with
  | nil => simp [dictSet, assocLookup, h]
  | cons kv rest ih =>
    obtain ⟨k', v'⟩ := kv
    by_cases h2 : k' = k
    · subst h2; simp [dictSet, assocLookup, h]
    · simp [dictSet, assocLookup, h2, ih]

theorem ensureStrField_lookup_ne (d : List (String × JsonValue))
    (k k2 : String) (h : k ≠ k2) :
    assocLookup (ensureStrField d k) k2 = assocLookup d k2 := by
  unfold ensureStrField
  cases hv : assocLookup d k with
  | none => simp [assocLookup_dictSet_ne _ _ _ _ h]
  | some v => cases v <;> simp [assocLookup_dictSet_ne _ _ _ _ h]

theorem ensureListField_lookup_ne (d : List (String × JsonValue))
    (k k2 : String) (h : k ≠ k2) :
    assocLookup (ensureListField d k) k2 = assocLookup d k2 := by
  unfold ensureListField
  cases hv : assocLookup d k with
  | none => simp [assocLookup_dictSet_ne _ _ _ _ h]
  | some v => cases v <;> simp [assocLookup_dictSet_ne _ _ _ _ h]

theorem ensureDictField_lookup_ne (d : List (String × JsonValue))
    (k k2 : String) (h : k ≠ k2) :
    assocLookup (ensureDictField d k) k2 = assocLookup d k2 := by
  unfold ensureDictField
  cases hv : assocLookup d k with
  | none => simp [assocLookup_dictSet_ne _ _ _ _ h]
  | some v => cases v <;> simp [assocLookup_dictSet_ne _ _ _ _ h]

theorem ensureConfidence_of_present (d : List (String × JsonValue))
    (v : JsonValue) (h : assocLookup d "confidence_score" = some v) :
    assocLookup (ensureConfidence d) "confidence_score" =
      some (.float (match pyFloat v with
        | some c => pyMax 0 (pyMin 1 c)
        | none => 1 / 2)) := by
  unfold ensureConfidence
  rw [h]
  cases hf : pyFloat v <;> simp [hf, assocLookup_dictSet_self]

/-- What the fully validated dict holds at confidence_score when the key was
present in the input (the ten later field loops never touch this key). -/
theorem validate_lookup_confidence (d : List (String × JsonValue))
    (v : JsonValue) (h : assocLookup d "confidence_score" = some v) :
    assocLookup (validate_analysis_dict d) "confidence_score" =
      some (.float (match pyFloat v with
        | some c => pyMax 0 (pyMin 1 c)
        | none => 1 / 2)) := by
  unfold validate_analysis_dict
  rw [ensureDictField_lookup_ne _ "value_for_money" "confidence_score"
        (by decide),
      ensureDictField_lookup_ne _ "atmosphere" "confidence_score" (by decide),
      ensureDictField_lookup_ne _ "service_quality" "confidence_score"
        (by decide),
      ensureDictField_lookup_ne _ "food_quality" "confidence_score"
        (by decide),
      ensureListField_lookup_ne _ "best_for" "confidence_score" (by decide),
      ensureListField_lookup_ne _ "potential_concerns" "confidence_score"
        (by decide),
      ensureListField_lookup_ne _ "key_highlights" "confidence_score"
        (by decide),
      ensureStrField_lookup_ne _ "price_range_assessment" "confidence_score"
        (by decide),
      ensureStrField_lookup_ne _ "recommendation" "confidence_score"
        (by decide),
      ensureStrField_lookup_ne _ "overall_summary" "confidence_score"
        (by decide),
      ensureStrField_lookup_ne _ "overall_rating" "confidence_score"
        (by decide)]
  exact ensureConfidence_of_present d v h

/-- C5: during validation, confidence_score is coerced to a float and
clamped into [0.0, 1.0], with 0.5 substituted when the value is
non-numeric (the float coercion raises). -/
theorem C5_confidence_clamped (d : List (String × JsonValue)) (v : JsonValue)
    (h : assocLookup d "confidence_score" = some v) :
    assocLookup (validate_analysis_dict d) "confidence_score" =
      some (.float (match pyFloat v with
        | some c => pyMax 0 (pyMin 1 c)
        | none => 1 / 2)) :=
  validate_lookup_confidence d v h

/-- Witness for C5 at the spec scenario: the out-of-range string "1.7" is
coerced and clamped to exactly 1.0. -/
theorem C5_witness :
    assocLookup [("confidence_score", JsonValue.str "1.7")]
        "confidence_score" = some (JsonValue.str "1.7") ∧
    assocLookup
        (validate_analysis_dict [("confidence_score", JsonValue.str "1.7")])
        "confidence_score" = some (JsonValue.float 1) := by
  refine ⟨rfl, ?_⟩
  rw [C5_confidence_clamped [("confidence_score", JsonValue.str "1.7")]
    (JsonValue.str "1.7") rfl]
  have hp : pyFloat (JsonValue.str "1.7") =
      some (1 * ((1 : ℚ) + 7 / 10 ^ 1)) := rfl
  simp only [hp]
  norm_num [pyMax, pyMin]

/-! Fallback-analysis claims. -/

theorem pyTrunc_43_10 : pyTrunc ((43 / 10 : ℚ) * 2) = 8 := by
  unfold pyTrunc
  rw [if_pos (by norm_num), Int.floor_eq_iff]
  constructor <;> norm_num

theorem round_43_10 : round ((43 / 10 : ℚ) * 2) = 9 := by
  rw [round_eq, Int.floor_eq_iff]
  constructor <;> norm_num

/-- C6 counterexample: at rating 4.3 both fallback implementations store a
category score of int(4.3 * 2) = 8 (as the number 8 resp. the string "8"),
while round(4.3 * 2) = 9, so the claimed `round(rating * 2)` is wrong. -/
theorem C6_counterexample :
    ((create_fallback_analysis [("rating", JsonValue.float (43 / 10))]).map
        (fun a => assocLookup a.food_quality "score") =
      Except.ok (some (JsonValue.int 8))) ∧
    ((backend_create_fallback_analysis
        [("rating", JsonValue.float (43 / 10))]).map
        (fun a => assocLookup a.food_quality "score") =
      Except.ok (some (JsonValue.str "8"))) ∧
    round ((43 / 10 : ℚ) * 2) = 9 := by
  refine ⟨?_, ?_, round_43_10⟩
  · have e : (create_fallback_analysis
        [("rating", JsonValue.float (43 / 10))]).map
        (fun a => assocLookup a.food_quality "score") =
        Except.ok (some (JsonValue.int (pyTrunc ((43 / 10 : ℚ) * 2)))) := rfl
    rw [e, pyTrunc_43_10]
  · have e : (backend_create_fallback_analysis
        [("rating", JsonValue.float (43 / 10))]).map
        (fun a => assocLookup a.food_quality "score") =
        Except.ok (some (JsonValue.str
          (toString (pyTrunc ((43 / 10 : ℚ) * 2))))) := rfl
    rw [e, pyTrunc_43_10]
    rfl

/-- C6 amended: for every input record with a float rating and integer
total_ratings / price_level, both `create_fallback_analysis`
implementations set the three rating-derived category scores to
`int(rating * 2)` (truncation toward zero, stored as a number in
`ai_analysis_service.py` and as a decimal string in the backend copy), set
the value_for_money score to the constant 7, and set confidence_score to
exactly 0.3; an absent rating defaults to 0. -/
theorem C6_scores_truncated (q : ℚ) (tr pl : ℤ) :
    ((create_fallback_analysis
        [("rating", JsonValue.float q), ("total_ratings", JsonValue.int tr),
         ("price_level", JsonValue.int pl)]).map
        (fun a => (assocLookup a.food_quality "score",
          assocLookup a.service_quality "score",
          assocLookup a.atmosphere "score",
          assocLookup a.value_for_money "score", a.confidence_score)) =
      Except.ok (some (JsonValue.int (pyTrunc (q * 2))),
        some (JsonValue.int (pyTrunc (q * 2))),
        some (JsonValue.int (pyTrunc (q * 2))),
        some (JsonValue.int 7), 3 / 10)) ∧
    ((backend_create_fallback_analysis
        [("rating", JsonValue.float q), ("total_ratings", JsonValue.int tr),
         ("price_level", JsonValue.int pl)]).map
        (fun a => (assocLookup a.food_quality "score",
          assocLookup a.service_quality "score",
          assocLookup a.atmosphere "score",
          assocLookup a.value_for_money "score", a.confidence_score)) =
      Except.ok (some (JsonValue.str (toString (pyTrunc (q * 2)))),
        some (JsonValue.str (toString (pyTrunc (q * 2)))),
        some (JsonValue.str (toString (pyTrunc (q * 2)))),
        some (JsonValue.str "7"), 3 / 10)) ∧
    ((create_fallback_analysis
        [("total_ratings", JsonValue.int tr),
         ("price_level", JsonValue.int pl)]).map
        (fun a => (assocLookup a.food_quality "score", a.confidence_score)) =
      Except.ok (some (JsonValue.int 0), 3 / 10)) := by
  refine ⟨rfl, rfl, ?_⟩
  have e : (create_fallback_analysis
      [("total_ratings", JsonValue.int tr),
       ("price_level", JsonValue.int pl)]).map
      (fun a => (assocLookup a.food_quality "score", a.confidence_score)) =
      Except.ok (some (JsonValue.int (pyTrunc (((0 : ℤ) : ℚ) * 2))), 3 / 10) :=
    rfl
  have ht : pyTrunc (((0 : ℤ) : ℚ) * 2) = 0 := by
    unfold pyTrunc
    norm_num
  rw [e, ht]

/-- C9 counterexample: on the record rating=4.0, total_ratings=10,
price_level=2 the two fallback implementations disagree: the
`ai_analysis_service.py` copy stores the food_quality score as the number
8, the backend copy as the string "8". -/
theorem C9_counterexample :
    create_fallback_analysis
        [("rating", JsonValue.float 4), ("total_ratings", JsonValue.int 10),
         ("price_level", JsonValue.int 2)] ≠
    backend_create_fallback_analysis
        [("rating", JsonValue.float 4), ("total_ratings", JsonValue.int 10),
         ("price_level", JsonValue.int 2)] := by
  intro h
  have h2 := congrArg
    (fun r => r.map (fun a => assocLookup a.food_quality "score")) h
  have e1 : (create_fallback_analysis
      [("rating", JsonValue.float 4), ("total_ratings", JsonValue.int 10),
       ("price_level", JsonValue.int 2)]).map
      (fun a => assocLookup a.food_quality "score") =
      Except.ok (some (JsonValue.int (pyTrunc ((4 : ℚ) * 2)))) := rfl
  have e2 : (backend_create_fallback_analysis
      [("rating", JsonValue.float 4), ("total_ratings", JsonValue.int 10),
       ("price_level", JsonValue.int 2)]).map
      (fun a => assocLookup a.food_quality "score") =
      Except.ok (some (JsonValue.str (toString (pyTrunc ((4 : ℚ) * 2))))) :=
    rfl
  simp only [e1, e2] at h2
  simp at h2

/-- C9 amended: on every record with a float rating and integer
total_ratings / price_level the two fallback implementations agree on every
field apart from the representation of the category "score" entries
(number vs decimal string): after erasing the score bindings the two
results are equal. -/
theorem C9_agree_except_scores (q : ℚ) (tr pl : ℤ) :
    (create_fallback_analysis
        [("rating", JsonValue.float q), ("total_ratings", JsonValue.int tr),
         ("price_level", JsonValue.int pl)]).map eraseScores =
    (backend_create_fallback_analysis
        [("rating", JsonValue.float q), ("total_ratings", JsonValue.int tr),
         ("price_level", JsonValue.int pl)]).map eraseScores := rfl

/-- C7: when explicit coordinates are supplied, the resolver returns the
coordinate-derived LocationData tagged "user_provided" (never the geocoded
result), whatever the address argument and the geocoding environment. -/
theorem C7_location_precedence
    (reverseResult : Option (List (String × String)))
    (geocodeResult ipResult : Option LocationData)
    (ip address : Option String) (la ln : ℝ) :
    ∃ loc, get_user_location reverseResult geocodeResult ipResult ip address
        (some la) (some ln) = some loc ∧
      loc.source = "user_provided" ∧ loc.latitude = la ∧ loc.longitude = ln :=
  ⟨_, rfl, rfl, rfl, rfl⟩

/-- C10: on the explicit-coordinates path the city annotation is always
`None`: `reverse_geocode` only ever returns a dict with the keys
"formatted_address" and "place_id", and `get_user_location` reads "city"
from it. -/
theorem C10_user_provided_city_none (hasKey : Bool)
    (api : Option GeoApiResponse) (geocodeResult ipResult : Option LocationData)
    (ip address : Option String) (la ln : ℝ) :
    Option.map LocationData.city
      (get_user_location (reverse_geocode hasKey api) geocodeResult ipResult
        ip address (some la) (some ln)) = some none := by
  cases hasKey with
  | false => simp [get_user_location, reverse_geocode]
  | true =>
    cases api with
    | none => simp [get_user_location, reverse_geocode]
    | some data =>
      cases h : data.results with
      | nil => simp [get_user_location, reverse_geocode, h]
      | cons r rest =>
        by_cases hs : data.status = "OK" <;>
          simp [get_user_location, reverse_geocode, h, hs, assocLookup]

/-! Geodesy lemmas. -/

theorem calculate_distance_self (lat lon : ℝ) :
    calculate_distance lat lon lat lon = 0 := by
  simp [calculate_distance, pyRadians]

theorem calculate_distance_comm (a1 b1 a2 b2 : ℝ) :
    calculate_distance a1 b1 a2 b2 = calculate_distance a2 b2 a1 b1 := by
  simp only [calculate_distance, pyRadians]
  have hsin : ∀ x y : ℝ,
      Real.sin ((x - y) / 2) ^ 2 = Real.sin ((y - x) / 2) ^ 2 := by
    intro x y
    rw [show (x - y) / 2 = -((y - x) / 2) by ring, Real.sin_neg, neg_sq]
  rw [hsin (a2 * Real.pi / 180) (a1 * Real.pi / 180),
      hsin (b2 * Real.pi / 180) (b1 * Real.pi / 180),
      mul_comm (Real.cos (a1 * Real.pi / 180)) (Real.cos (a2 * Real.pi / 180))]

/-- C8: for all valid coordinate pairs the haversine distance of a point to
itself is 0 and the distance function is symmetric in its two points. -/
theorem C8_distance_zero_and_symmetric (lat1 lon1 lat2 lon2 : ℝ)
    (h1 : -90 ≤ lat1 ∧ lat1 ≤ 90) (h2 : -180 ≤ lon1 ∧ lon1 ≤ 180)
    (h3 : -90 ≤ lat2 ∧ lat2 ≤ 90) (h4 : -180 ≤ lon2 ∧ lon2 ≤ 180) :
    calculate_distance lat1 lon1 lat1 lon1 = 0 ∧
    calculate_distance lat1 lon1 lat2 lon2 =
      calculate_distance lat2 lon2 lat1 lon1 :=
  ⟨calculate_distance_self lat1 lon1,
   calculate_distance_comm lat1 lon1 lat2 lon2⟩

/-- Witness for C8 at the concrete valid coordinates (10, 20) and (30, 40). -/
theorem C8_witness :
    calculate_distance 10 20 10 20 = 0 ∧
    calculate_distance 10 20 30 40 = calculate_distance 30 40 10 20 :=
  C8_distance_zero_and_symmetric 10 20 30 40
    (by norm_num) (by norm_num) (by norm_num) (by norm_num)

/-! Validation-totality lemmas for the AI repair path. -/

theorem ensureConfidence_lookup_ne (d : List (String × JsonValue))
    (k2 : String) (h : k2 ≠ "confidence_score") :
    assocLookup (ensureConfidence d) k2 = assocLookup d k2 := by
  unfold ensureConfidence
  cases hv : assocLookup d "confidence_score" with
  | none => rfl
  | some v =>
    cases hf : pyFloat v <;>
      simp [hf, assocLookup_dictSet_ne _ _ _ _ (fun he => h he.symm)]

theorem ensureStrField_establishes (d : List (String × JsonValue))
    (k : String) :
    ∃ s, assocLookup (ensureStrField d k) k = some (.str s) := by
  unfold ensureStrField
  cases hv : assocLookup d k with
  | none => exact ⟨"Not available", by simp [assocLookup_dictSet_self]⟩
  | some v =>
    cases v <;>
      first
        | exact ⟨_, hv⟩
        | exact ⟨"Not available", by simp [assocLookup_dictSet_self]⟩

theorem ensureListField_establishes (d : List (String × JsonValue))
    (k : String) :
    ∃ xs, assocLookup (ensureListField d k) k = some (.arr xs) ∧
      (xs = [] ∨ assocLookup d k = some (.arr xs)) := by
  unfold ensureListField
  cases hv : assocLookup d k with
  | none =>
    refine ⟨[], ?_, Or.inl rfl⟩
    simp [assocLookup_dictSet_self]
  | some v =>
    cases v with
    | arr xs =>
      refine ⟨xs, ?_, Or.inr rfl⟩
      dsimp only
      exact hv
    | null =>
      refine ⟨[], ?_, Or.inl rfl⟩; simp [assocLookup_dictSet_self]
    | bool b =>
      refine ⟨[], ?_, Or.inl rfl⟩; simp [assocLookup_dictSet_self]
    | int n =>
      refine ⟨[], ?_, Or.inl rfl⟩; simp [assocLookup_dictSet_self]
    | float q =>
      refine ⟨[], ?_, Or.inl rfl⟩; simp [assocLookup_dictSet_self]
    | str s =>
      refine ⟨[], ?_, Or.inl rfl⟩; simp [assocLookup_dictSet_self]
    | obj fs =>
      refine ⟨[], ?_, Or.inl rfl⟩; simp [assocLookup_dictSet_self]

theorem ensureDictField_establishes (d : List (String × JsonValue))
    (k : String) :
    ∃ fs, assocLookup (ensureDictField d k) k = some (.obj fs) := by
  unfold ensureDictField
  cases hv : assocLookup d k with
  | none =>
    refine ⟨[("score", .str "5"), ("highlights", .str "Not analyzed"),
      ("concerns", .str "No data available")], ?_⟩
    simp [assocLookup_dictSet_self, defaultCategoryBlock]
  | some v =>
    cases v with
    | obj fs =>
      refine ⟨fs, ?_⟩
      dsimp only
      exact hv
    | null =>
      refine ⟨[("score", .str "5"), ("highlights", .str "Not analyzed"),
        ("concerns", .str "No data available")], ?_⟩
      simp [assocLookup_dictSet_self, defaultCategoryBlock]
    | bool b =>
      refine ⟨[("score", .str "5"), ("highlights", .str "Not analyzed"),
        ("concerns", .str "No data available")], ?_⟩
      simp [assocLookup_dictSet_self, defaultCategoryBlock]
    | int n =>
      refine ⟨[("score", .str "5"), ("highlights", .str "Not analyzed"),
        ("concerns", .str "No data available")], ?_⟩
      simp [assocLookup_dictSet_self, defaultCategoryBlock]
    | float q =>
      refine ⟨[("score", .str "5"), ("highlights", .str "Not analyzed"),
        ("concerns", .str "No data available")], ?_⟩
      simp [assocLookup_dictSet_self, defaultCategoryBlock]
    | str s =>
      refine ⟨[("score", .str "5"), ("highlights", .str "Not analyzed"),
        ("concerns", .str "No data available")], ?_⟩
      simp [assocLookup_dictSet_self, defaultCategoryBlock]
    | arr xs =>
      refine ⟨[("score", .str "5"), ("highlights", .str "Not analyzed"),
        ("concerns", .str "No data available")], ?_⟩
      simp [assocLookup_dictSet_self, defaultCategoryBlock]

theorem allStrings_of_all_str (xs : List JsonValue)
    (h : ∀ x ∈ xs, ∃ s, x = JsonValue.str s) :
    ∃ l, allStrings xs = some l := by
  induction xs with
  | nil => exact ⟨[], rfl⟩
  | cons x rest ih =>
    obtain ⟨s, hs⟩ := h x (List.mem_cons_self x rest)
    subst hs
    obtain ⟨l, hl⟩ := ih (fun y hy => h y (List.mem_cons_of_mem _ hy))
    exact ⟨s :: l, by simp [allStrings, hl]⟩

theorem clamp_bounds (c : ℚ) :
    0 ≤ pyMax 0 (pyMin 1 c) ∧ pyMax 0 (pyMin 1 c) ≤ 1 := by
  unfold pyMax pyMin
  split_ifs <;> constructor <;> linarith

/-- C4 counterexample: the empty JSON object parses as an object and misses
every expected field, yet the validation stage does not produce a
RestaurantAnalysis for it: `_validate_analysis_dict` never inserts a
missing confidence_score, so the pydantic construction fails and the engine
defers to the deterministic fallback. -/
theorem C4_counterexample : validateAndConstruct [] = none := rfl

/-- C4 amended: for every object payload that does contain a
confidence_score entry (and whose list-typed fields, when present as
lists, hold only strings), the validation stage never fails and produces a
structurally complete RestaurantAnalysis; on a payload carrying only a
numeric confidence_score every documented default is substituted.  When
confidence_score is absent the construction fails (see the
counterexample), so the engine defers to the fallback also for some
payloads that did parse as objects. -/
theorem C4_validation_needs_confidence :
    (∀ d : List (String × JsonValue),
      (assocLookup d "confidence_score").isSome →
      (∀ k ∈ ["key_highlights", "potential_concerns", "best_for"],
        ∀ xs, assocLookup d k = some (JsonValue.arr xs) →
          ∀ x ∈ xs, ∃ s, x = JsonValue.str s) →
      (validateAndConstruct d).isSome) ∧
    (∀ c : ℚ,
      validateAndConstruct [("confidence_score", JsonValue.float c)] =
      some { overall_rating := "Not available",
             overall_summary := "Not available",
             food_quality := [("score", .str "5"),
               ("highlights", .str "Not analyzed"),
               ("concerns", .str "No data available")],
             service_quality := [("score", .str "5"),
               ("highlights", .str "Not analyzed"),
               ("concerns", .str "No data available")],
             atmosphere := [("score", .str "5"),
               ("highlights", .str "Not analyzed"),
               ("concerns", .str "No data available")],
             value_for_money := [("score", .str "5"),
               ("highlights", .str "Not analyzed"),
               ("concerns", .str "No data available")],
             key_highlights := [], potential_concerns := [],
             recommendation := "Not available", best_for := [],
             price_range_assessment := "Not available",
             confidence_score := pyMax 0 (pyMin 1 c) }) := by
  constructor
  · intro d hconf hlists
    obtain ⟨v, hv⟩ := Option.isSome_iff_exists.mp hconf
    have h_or : ∃ s, assocLookup (validate_analysis_dict d) "overall_rating" =
        some (.str s) := by
      simp only [validate_analysis_dict, ensureDictField_lookup_ne,
        ensureListField_lookup_ne, ensureStrField_lookup_ne, ne_eq,
        String.reduceEq, not_false_eq_true]
      exact ensureStrField_establishes _ _
    have h_os : ∃ s, assocLookup (validate_analysis_dict d) "overall_summary" =
        some (.str s) := by
      simp only [validate_analysis_dict, ensureDictField_lookup_ne,
        ensureListField_lookup_ne, ensureStrField_lookup_ne, ne_eq,
        String.reduceEq, not_false_eq_true]
      exact ensureStrField_establishes _ _
    have h_rec : ∃ s, assocLookup (validate_analysis_dict d) "recommendation" =
        some (.str s) := by
      simp only [validate_analysis_dict, ensureDictField_lookup_ne,
        ensureListField_lookup_ne, ensureStrField_lookup_ne, ne_eq,
        String.reduceEq, not_false_eq_true]
      exact ensureStrField_establishes _ _
    have h_pra : ∃ s, assocLookup (validate_analysis_dict d)
        "price_range_assessment" = some (.str s) := by
      simp only [validate_analysis_dict, ensureDictField_lookup_ne,
        ensureListField_lookup_ne, ensureStrField_lookup_ne, ne_eq,
        String.reduceEq, not_false_eq_true]
      exact ensureStrField_establishes _ _
    have h_fq : ∃ fs, assocLookup (validate_analysis_dict d) "food_quality" =
        some (.obj fs) := by
      simp only [validate_analysis_dict, ensureDictField_lookup_ne, ne_eq,
        String.reduceEq, not_false_eq_true]
      exact ensureDictField_establishes _ _
    have h_sq : ∃ fs, assocLookup (validate_analysis_dict d) "service_quality" =
        some (.obj fs) := by
      simp only [validate_analysis_dict, ensureDictField_lookup_ne, ne_eq,
        String.reduceEq, not_false_eq_true]
      exact ensureDictField_establishes _ _
    have h_at : ∃ fs, assocLookup (validate_analysis_dict d) "atmosphere" =
        some (.obj fs) := by
      simp only [validate_analysis_dict, ensureDictField_lookup_ne, ne_eq,
        String.reduceEq, not_false_eq_true]
      exact ensureDictField_establishes _ _
    have h_vfm : ∃ fs, assocLookup (validate_analysis_dict d)
        "value_for_money" = some (.obj fs) := by
      simp only [validate_analysis_dict]
      exact ensureDictField_establishes _ _
    have h_kh : ∃ xs, assocLookup (validate_analysis_dict d) "key_highlights" =
        some (.arr xs) ∧ ∃ l, allStrings xs = some l := by
      simp only [validate_analysis_dict, ensureDictField_lookup_ne,
        ensureListField_lookup_ne, ne_eq, String.reduceEq, not_false_eq_true]
      obtain ⟨xs, hx, hc⟩ := ensureListField_establishes _ "key_highlights"
      refine ⟨xs, hx, ?_⟩
      rcases hc with rfl | hmem
      · exact ⟨[], rfl⟩
      · simp only [ensureStrField_lookup_ne, ensureConfidence_lookup_ne,
          ne_eq, String.reduceEq, not_false_eq_true] at hmem
        exact allStrings_of_all_str xs
          (hlists "key_highlights" (by simp) xs hmem)
    have h_pc : ∃ xs, assocLookup (validate_analysis_dict d)
        "potential_concerns" = some (.arr xs) ∧ ∃ l, allStrings xs = some l := by
      simp only [validate_analysis_dict, ensureDictField_lookup_ne,
        ensureListField_lookup_ne, ne_eq, String.reduceEq, not_false_eq_true]
      obtain ⟨xs, hx, hc⟩ := ensureListField_establishes _ "potential_concerns"
      refine ⟨xs, hx, ?_⟩
      rcases hc with rfl | hmem
      · exact ⟨[], rfl⟩
      · simp only [ensureListField_lookup_ne, ensureStrField_lookup_ne,
          ensureConfidence_lookup_ne, ne_eq, String.reduceEq,
          not_false_eq_true] at hmem
        exact allStrings_of_all_str xs
          (hlists "potential_concerns" (by simp) xs hmem)
    have h_bf : ∃ xs, assocLookup (validate_analysis_dict d) "best_for" =
        some (.arr xs) ∧ ∃ l, allStrings xs = some l := by
      simp only [validate_analysis_dict, ensureDictField_lookup_ne,
        ensureListField_lookup_ne, ne_eq, String.reduceEq, not_false_eq_true]
      obtain ⟨xs, hx, hc⟩ := ensureListField_establishes _ "best_for"
      refine ⟨xs, hx, ?_⟩
      rcases hc with rfl | hmem
      · exact ⟨[], rfl⟩
      · simp only [ensureListField_lookup_ne, ensureStrField_lookup_ne,
          ensureConfidence_lookup_ne, ne_eq, String.reduceEq,
          not_false_eq_true] at hmem
        exact allStrings_of_all_str xs (hlists "best_for" (by simp) xs hmem)
    have h_cf : ∃ c0, assocLookup (validate_analysis_dict d)
        "confidence_score" = some (.float c0) ∧ 0 ≤ c0 ∧ c0 ≤ 1 := by
      cases hf : pyFloat v with
      | some c =>
        refine ⟨pyMax 0 (pyMin 1 c), ?_, (clamp_bounds c).1, (clamp_bounds c).2⟩
        simp only [validate_lookup_confidence d v hv, hf]
      | none =>
        refine ⟨1 / 2, ?_, by norm_num, by norm_num⟩
        simp only [validate_lookup_confidence d v hv, hf]
    obtain ⟨s1, h_or⟩ := h_or
    obtain ⟨s2, h_os⟩ := h_os
    obtain ⟨s3, h_rec⟩ := h_rec
    obtain ⟨s4, h_pra⟩ := h_pra
    obtain ⟨f1, h_fq⟩ := h_fq
    obtain ⟨f2, h_sq⟩ := h_sq
    obtain ⟨f3, h_at⟩ := h_at
    obtain ⟨f4, h_vfm⟩ := h_vfm
    obtain ⟨x1, h_kh, l1, hl1⟩ := h_kh
    obtain ⟨x2, h_pc, l2, hl2⟩ := h_pc
    obtain ⟨x3, h_bf, l3, hl3⟩ := h_bf
    obtain ⟨c0, h_cf, hb1, hb2⟩ := h_cf
    unfold validateAndConstruct restaurantAnalysisOfDict getStrField
      getListField getObjField getConfidenceField
    simp [h_or, h_os, h_rec, h_pra, h_fq, h_sq, h_at, h_vfm, h_kh, h_pc, h_bf,
      h_cf, hl1, hl2, hl3, hb1, hb2, pyFloat]
  · intro c
    have hb := clamp_bounds c
    have e1 : ensureConfidence [("confidence_score", JsonValue.float c)] =
        [("confidence_score", JsonValue.float (pyMax 0 (pyMin 1 c)))] := rfl
    have e2 : ensureStrField
        [("confidence_score", JsonValue.float (pyMax 0 (pyMin 1 c)))] "overall_rating" =
        [("confidence_score", JsonValue.float (pyMax 0 (pyMin 1 c))),
         ("overall_rating", JsonValue.str "Not available")] := rfl
    have e3 : ensureStrField
        [("confidence_score", JsonValue.float (pyMax 0 (pyMin 1 c))),
         ("overall_rating", JsonValue.str "Not available")] "overall_summary" =
        [("confidence_score", JsonValue.float (pyMax 0 (pyMin 1 c))),
         ("overall_rating", JsonValue.str "Not available"),
         ("overall_summary", JsonValue.str "Not available")] := rfl
    have e4 : ensureStrField
        [("confidence_score", JsonValue.float (pyMax 0 (pyMin 1 c))),
         ("overall_rating", JsonValue.str "Not available"),
         ("overall_summary", JsonValue.str "Not available")] "recommendation" =
        [("confidence_score", JsonValue.float (pyMax 0 (pyMin 1 c))),
         ("overall_rating", JsonValue.str "Not available"),
         ("overall_summary", JsonValue.str "Not available"),
         ("recommendation", JsonValue.str "Not available")] := rfl
    have e5 : ensureStrField
        [("confidence_score", JsonValue.float (pyMax 0 (pyMin 1 c))),
         ("overall_rating", JsonValue.str "Not available"),
         ("overall_summary", JsonValue.str "Not available"),
         ("recommendation", JsonValue.str "Not available")] "price_range_assessment" =
        [("confidence_score", JsonValue.float (pyMax 0 (pyMin 1 c))),
         ("overall_rating", JsonValue.str "Not available"),
         ("overall_summary", JsonValue.str "Not available"),
         ("recommendation", JsonValue.str "Not available"),
         ("price_range_assessment", JsonValue.str "Not available")] := rfl
    have e6 : ensureListField
        [("confidence_score", JsonValue.float (pyMax 0 (pyMin 1 c))),
         ("overall_rating", JsonValue.str "Not available"),
         ("overall_summary", JsonValue.str "Not available"),
         ("recommendation", JsonValue.str "Not available"),
         ("price_range_assessment", JsonValue.str "Not available")] "key_highlights" =
        [("confidence_score", JsonValue.float (pyMax 0 (pyMin 1 c))),
         ("overall_rating", JsonValue.str "Not available"),
         ("overall_summary", JsonValue.str "Not available"),
         ("recommendation", JsonValue.str "Not available"),
         ("price_range_assessment", JsonValue.str "Not available"),
         ("key_highlights", JsonValue.arr [])] := rfl
    have e7 : ensureListField
        [("confidence_score", JsonValue.float (pyMax 0 (pyMin 1 c))),
         ("overall_rating", JsonValue.str "Not available"),
         ("overall_summary", JsonValue.str "Not available"),
         ("recommendation", JsonValue.str "Not available"),
         ("price_range_assessment", JsonValue.str "Not available"),
         ("key_highlights", JsonValue.arr [])] "potential_concerns" =
        [("confidence_score", JsonValue.float (pyMax 0 (pyMin 1 c))),
         ("overall_rating", JsonValue.str "Not available"),
         ("overall_summary", JsonValue.str "Not available"),
         ("recommendation", JsonValue.str "Not available"),
         ("price_range_assessment", JsonValue.str "Not available"),
         ("key_highlights", JsonValue.arr []),
         ("potential_concerns", JsonValue.arr [])] := rfl
    have e8 : ensureListField
        [("confidence_score", JsonValue.float (pyMax 0 (pyMin 1 c))),
         ("overall_rating", JsonValue.str "Not available"),
         ("overall_summary", JsonValue.str "Not available"),
         ("recommendation", JsonValue.str "Not available"),
         ("price_range_assessment", JsonValue.str "Not available"),
         ("key_highlights", JsonValue.arr []),
         ("potential_concerns", JsonValue.arr [])] "best_for" =
        [("confidence_score", JsonValue.float (pyMax 0 (pyMin 1 c))),
         ("overall_rating", JsonValue.str "Not available"),
         ("overall_summary", JsonValue.str "Not available"),
         ("recommendation", JsonValue.str "Not available"),
         ("price_range_assessment", JsonValue.str "Not available"),
         ("key_highlights", JsonValue.arr []),
         ("potential_concerns", JsonValue.arr []),
         ("best_for", JsonValue.arr [])] := rfl
    have e9 : ensureDictField
        [("confidence_score", JsonValue.float (pyMax 0 (pyMin 1 c))),
         ("overall_rating", JsonValue.str "Not available"),
         ("overall_summary", JsonValue.str "Not available"),
         ("recommendation", JsonValue.str "Not available"),
         ("price_range_assessment", JsonValue.str "Not available"),
         ("key_highlights", JsonValue.arr []),
         ("potential_concerns", JsonValue.arr []),
         ("best_for", JsonValue.arr [])] "food_quality" =
        [("confidence_score", JsonValue.float (pyMax 0 (pyMin 1 c))),
         ("overall_rating", JsonValue.str "Not available"),
         ("overall_summary", JsonValue.str "Not available"),
         ("recommendation", JsonValue.str "Not available"),
         ("price_range_assessment", JsonValue.str "Not available"),
         ("key_highlights", JsonValue.arr []),
         ("potential_concerns", JsonValue.arr []),
         ("best_for", JsonValue.arr []),
         ("food_quality", defaultCategoryBlock)] := rfl
    have e10 : ensureDictField
        [("confidence_score", JsonValue.float (pyMax 0 (pyMin 1 c))),
         ("overall_rating", JsonValue.str "Not available"),
         ("overall_summary", JsonValue.str "Not available"),
         ("recommendation", JsonValue.str "Not available"),
         ("price_range_assessment", JsonValue.str "Not available"),
         ("key_highlights", JsonValue.arr []),
         ("potential_concerns", JsonValue.arr []),
         ("best_for", JsonValue.arr []),
         ("food_quality", defaultCategoryBlock)] "service_quality" =
        [("confidence_score", JsonValue.float (pyMax 0 (pyMin 1 c))),
         ("overall_rating", JsonValue.str "Not available"),
         ("overall_summary", JsonValue.str "Not available"),
         ("recommendation", JsonValue.str "Not available"),
         ("price_range_assessment", JsonValue.str "Not available"),
         ("key_highlights", JsonValue.arr []),
         ("potential_concerns", JsonValue.arr []),
         ("best_for", JsonValue.arr []),
         ("food_quality", defaultCategoryBlock),
         ("service_quality", defaultCategoryBlock)] := rfl
    have e11 : ensureDictField
        [("confidence_score", JsonValue.float (pyMax 0 (pyMin 1 c))),
         ("overall_rating", JsonValue.str "Not available"),
         ("overall_summary", JsonValue.str "Not available"),
         ("recommendation", JsonValue.str "Not available"),
         ("price_range_assessment", JsonValue.str "Not available"),
         ("key_highlights", JsonValue.arr []),
         ("potential_concerns", JsonValue.arr []),
         ("best_for", JsonValue.arr []),
         ("food_quality", defaultCategoryBlock),
         ("service_quality", defaultCategoryBlock)] "atmosphere" =
        [("confidence_score", JsonValue.float (pyMax 0 (pyMin 1 c))),
         ("overall_rating", JsonValue.str "Not available"),
         ("overall_summary", JsonValue.str "Not available"),
         ("recommendation", JsonValue.str "Not available"),
         ("price_range_assessment", JsonValue.str "Not available"),
         ("key_highlights", JsonValue.arr []),
         ("potential_concerns", JsonValue.arr []),
         ("best_for", JsonValue.arr []),
         ("food_quality", defaultCategoryBlock),
         ("service_quality", defaultCategoryBlock),
         ("atmosphere", defaultCategoryBlock)] := rfl
    have e12 : ensureDictField
        [("confidence_score", JsonValue.float (pyMax 0 (pyMin 1 c))),
         ("overall_rating", JsonValue.str "Not available"),
         ("overall_summary", JsonValue.str "Not available"),
         ("recommendation", JsonValue.str "Not available"),
         ("price_range_assessment", JsonValue.str "Not available"),
         ("key_highlights", JsonValue.arr []),
         ("potential_concerns", JsonValue.arr []),
         ("best_for", JsonValue.arr []),
         ("food_quality", defaultCategoryBlock),
         ("service_quality", defaultCategoryBlock),
         ("atmosphere", defaultCategoryBlock)] "value_for_money" =
        [("confidence_score", JsonValue.float (pyMax 0 (pyMin 1 c))),
         ("overall_rating", JsonValue.str "Not available"),
         ("overall_summary", JsonValue.str "Not available"),
         ("recommendation", JsonValue.str "Not available"),
         ("price_range_assessment", JsonValue.str "Not available"),
         ("key_highlights", JsonValue.arr []),
         ("potential_concerns", JsonValue.arr []),
         ("best_for", JsonValue.arr []),
         ("food_quality", defaultCategoryBlock),
         ("service_quality", defaultCategoryBlock),
         ("atmosphere", defaultCategoryBlock),
         ("value_for_money", defaultCategoryBlock)] := rfl
    have hD : validate_analysis_dict [("confidence_score", JsonValue.float c)] =
        [("confidence_score", JsonValue.float (pyMax 0 (pyMin 1 c))),
         ("overall_rating", JsonValue.str "Not available"),
         ("overall_summary", JsonValue.str "Not available"),
         ("recommendation", JsonValue.str "Not available"),
         ("price_range_assessment", JsonValue.str "Not available"),
         ("key_highlights", JsonValue.arr []),
         ("potential_concerns", JsonValue.arr []),
         ("best_for", JsonValue.arr []),
         ("food_quality", defaultCategoryBlock),
         ("service_quality", defaultCategoryBlock),
         ("atmosphere", defaultCategoryBlock),
         ("value_for_money", defaultCategoryBlock)] := by
      simp only [validate_analysis_dict]
      rw [e1, e2, e3, e4, e5, e6, e7, e8, e9, e10, e11, e12]
    unfold validateAndConstruct
    rw [hD]
    unfold restaurantAnalysisOfDict getStrField getListField getObjField
      getConfidenceField
    simp only [assocLookup, String.reduceEq, if_true, if_false, reduceIte,
      allStrings, pyFloat, defaultCategoryBlock]
    rw [if_pos ⟨hb.1, hb.2⟩]
    rfl

/-- Witness for C4 at the payload holding only a numeric confidence_score. -/
theorem C4_witness :
    ((assocLookup [("confidence_score", JsonValue.float 2)]
        "confidence_score").isSome) ∧
    (validateAndConstruct [("confidence_score", JsonValue.float 2)]).isSome :=
  ⟨rfl, C4_validation_needs_confidence.1
    [("confidence_score", JsonValue.float 2)] rfl
    (by
      intro k hk xs hxs
      exfalso
      fin_cases hk <;> simp [assocLookup] at hxs)⟩

/-! Paginator invariants. -/

theorem pyRound2_le (x : ℝ) : ((pyRound2 x : ℚ) : ℝ) ≤ x + 1 / 200 := by
  unfold pyRound2
  push_cast
  have h : ((round (x * 100) : ℤ) : ℝ) ≤ x * 100 + 1 / 2 := by
    rw [round_eq]
    exact_mod_cast Int.floor_le (x * 100 + 1 / 2)
  linarith

theorem processPlaces_length (lat lng : ℝ) (mr : ℚ) (mx : ℕ)
    (acc : List Restaurant) (ps : List RawPlace) (h : acc.length ≤ mx) :
    (processPlaces lat lng mr mx acc ps).length ≤ mx := by
  induction ps generalizing acc with
  | nil => simpa [processPlaces] using h
  | cons p rest ih =>
    rw [processPlaces]
    by_cases hfull : mx ≤ acc.length
    · simpa [hfull] using h
    · rw [if_neg hfull]
      by_cases hr : p.rating.getD 0 ≥ mr
      · rw [if_pos hr]
        exact ih _ (by simp; omega)
      · rw [if_neg hr]
        exact ih _ h

theorem processPlaces_mem (lat lng : ℝ) (mr : ℚ) (mx : ℕ)
    (P : Restaurant → Prop) (acc : List Restaurant) (ps : List RawPlace)
    (hacc : ∀ r ∈ acc, P r)
    (hps : ∀ p ∈ ps, P (format_restaurant_data lat lng p)) :
    ∀ r ∈ processPlaces lat lng mr mx acc ps, P r := by
  induction ps generalizing acc with
  | nil => simpa [processPlaces] using hacc
  | cons p rest ih =>
    rw [processPlaces]
    by_cases hfull : mx ≤ acc.length
    · simpa [hfull] using hacc
    · rw [if_neg hfull]
      by_cases hr : p.rating.getD 0 ≥ mr
      · rw [if_pos hr]
        refine ih _ ?_ (fun q hq => hps q (List.mem_cons_of_mem _ hq))
        intro r hr2
        rcases List.mem_append.mp hr2 with h | h
        · exact hacc r h
        · rcases List.mem_singleton.mp h with rfl
          exact hps p (List.mem_cons_self _ _)
      · rw [if_neg hr]
        exact ih _ hacc (fun q hq => hps q (List.mem_cons_of_mem _ hq))

theorem fetchPages_ok_inv (lat lng : ℝ) (mr : ℚ) (mx : ℕ)
    (P : Restaurant → Prop) (outcomes : List FetchOutcome)
    (token : Option String) (acc out : List Restaurant)
    (hlen : acc.length ≤ mx) (hacc : ∀ r ∈ acc, P r)
    (hpages : ∀ o ∈ outcomes, ∀ resp, o = FetchOutcome.page resp →
      ∀ p ∈ resp.results, P (format_restaurant_data lat lng p))
    (hok : fetchPages lat lng mr mx outcomes token acc = .ok out) :
    out.length ≤ mx ∧ ∀ r ∈ out, P r := by
  induction outcomes generalizing token acc with
  | nil =>
    cases token <;> simp [fetchPages] at hok <;> subst hok <;>
      exact ⟨hlen, hacc⟩
  | cons o rest ih =>
    cases token with
    | none =>
      simp [fetchPages] at hok
      subst hok
      exact ⟨hlen, hacc⟩
    | some t =>
      cases o with
      | err =>
        have hunf : fetchPages lat lng mr mx (.err :: rest) (some t) acc =
            (if mx ≤ acc.length then .ok acc
             else .error .fetchFailed) := rfl
        rw [hunf] at hok
        by_cases hfull : mx ≤ acc.length
        · rw [if_pos hfull] at hok
          simp at hok
          subst hok
          exact ⟨hlen, hacc⟩
        · rw [if_neg hfull] at hok
          simp at hok
      | page resp =>
        have hunf : fetchPages lat lng mr mx (.page resp :: rest) (some t)
            acc =
            (if mx ≤ acc.length then .ok acc
             else if resp.status = "OK" then
               fetchPages lat lng mr mx rest resp.next_page_token
                 (processPlaces lat lng mr mx acc resp.results)
             else .ok acc) := rfl
        rw [hunf] at hok
        by_cases hfull : mx ≤ acc.length
        · rw [if_pos hfull] at hok
          simp at hok
          subst hok
          exact ⟨hlen, hacc⟩
        · rw [if_neg hfull] at hok
          by_cases hst : resp.status = "OK"
          · rw [if_pos hst] at hok
            refine ih _ _ ?_ ?_ ?_ hok
            · exact processPlaces_length _ _ _ _ _ _ (le_of_not_le hfull)
            · exact processPlaces_mem _ _ _ _ P _ _ hacc
                (hpages _ (List.mem_cons_self _ _) resp rfl)
            · intro o2 ho2 r2 hr2 p hp
              exact hpages o2 (List.mem_cons_of_mem _ ho2) r2 hr2 p hp
          · rw [if_neg hst] at hok
            simp at hok
            subst hok
            exact ⟨hlen, hacc⟩

/-- C1: whenever a search completes successfully with radius and
max_results inside their configured bounds, and every place the upstream
search returns lies within the requested radius of the origin (the
documented contract of the radius-bounded nearby-search call), the result
list has at most max_results entries and every returned distance_miles is
at most the radius up to the 2-decimal rounding tolerance of 1/200. -/
theorem C1_paginator_bounds (lat lng : ℝ) (radius min_rating : ℚ)
    (max_results : ℕ) (first : FetchOutcome) (more : List FetchOutcome)
    (out : List Restaurant)
    (hrad : 1 / 10 ≤ radius ∧ radius ≤ 10)
    (hmax : 1 ≤ max_results ∧ max_results ≤ 60)
    (hwithin : ∀ o ∈ first :: more, ∀ resp, o = FetchOutcome.page resp →
      ∀ p ∈ resp.results,
        calculate_distance lat lng (p.lat.getD 0) (p.lng.getD 0) ≤
          (radius : ℝ))
    (hok : find_restaurants lat lng radius min_rating max_results first
      more = .ok out) :
    out.length ≤ max_results ∧
      ∀ r ∈ out, (r.distance_miles : ℝ) ≤ (radius : ℝ) + 1 / 200 := by
  cases first with
  | err => simp [find_restaurants] at hok
  | page resp =>
    by_cases hst : resp.status = "OK"
    · have hunf : find_restaurants lat lng radius min_rating max_results
          (.page resp) more =
          (match fetchPages lat lng min_rating max_results more
              resp.next_page_token
              (processPlaces lat lng min_rating max_results []
                resp.results) with
           | .error e => .error e
           | .ok restaurants =>
             .ok (List.insertionSort restLE restaurants)) := by
        simp only [find_restaurants, if_pos hst]
      rw [hunf] at hok
      cases hfp : fetchPages lat lng min_rating max_results more
          resp.next_page_token
          (processPlaces lat lng min_rating max_results [] resp.results) with
      | error e => rw [hfp] at hok; simp at hok
      | ok restaurants =>
        rw [hfp] at hok
        simp only [Except.ok.injEq] at hok
        subst hok
        have hinv := fetchPages_ok_inv lat lng min_rating max_results
          (fun r => (r.distance_miles : ℝ) ≤ (radius : ℝ) + 1 / 200)
          more resp.next_page_token _ restaurants
          (processPlaces_length _ _ _ _ _ _ (Nat.zero_le _))
          (processPlaces_mem _ _ _ _ _ _ _ (by simp)
            (fun p hp => by
              have hd := hwithin (.page resp) (List.mem_cons_self _ _)
                resp rfl p hp
              have := pyRound2_le (calculate_distance lat lng
                (p.lat.getD 0) (p.lng.getD 0))
              simp only [format_restaurant_data]
              linarith))
          (fun o ho r2 hr2 p hp => by
            have hd := hwithin o (List.mem_cons_of_mem _ ho) r2 hr2 p hp
            have := pyRound2_le (calculate_distance lat lng
              (p.lat.getD 0) (p.lng.getD 0))
            simp only [format_restaurant_data]
            linarith)
          hfp
        have hperm := List.perm_insertionSort restLE restaurants
        constructor
        · rw [hperm.length_eq]
          exact hinv.1
        · intro r hr
          exact hinv.2 r (hperm.mem_iff.mp hr)
    · have : find_restaurants lat lng radius min_rating max_results
          (.page resp) more = .error .internalError := by
        simp only [find_restaurants, if_neg hst]
      rw [this] at hok
      simp at hok

/-- Witness for C1: a one-page search with no results at origin (0,0),
radius 1 mile, cap 5. -/
theorem C1_witness :
    ((1 : ℚ) / 10 ≤ (1 : ℚ) ∧ (1 : ℚ) ≤ 10) ∧ (1 ≤ 5 ∧ 5 ≤ 60) ∧
    (([] : List Restaurant).length ≤ 5 ∧
      ∀ r ∈ ([] : List Restaurant),
        (r.distance_miles : ℝ) ≤ ((1 : ℚ) : ℝ) + 1 / 200) := by
  have hw : ∀ o ∈ [FetchOutcome.page (⟨"OK", [], none⟩ : PageResponse)],
      ∀ resp, o = FetchOutcome.page resp → ∀ p ∈ resp.results,
        calculate_distance 0 0 (p.lat.getD 0) (p.lng.getD 0) ≤
          ((1 : ℚ) : ℝ) := by
    intro o ho resp hresp p hp
    simp only [List.mem_singleton] at ho
    subst ho
    injection hresp with h
    subst h
    simp at hp
  exact ⟨by norm_num, by norm_num,
    C1_paginator_bounds 0 0 1 0 5 (.page ⟨"OK", [], none⟩) [] []
      (by norm_num) (by norm_num) hw rfl⟩

/-- C3 counterexample: first page succeeds (one restaurant accumulated, a
continuation token present), the continuation request hits a transport
error — and the whole search fails with the 500 "Failed to fetch
restaurant data" error instead of returning the accumulated restaurant. -/
theorem C3_counterexample :
    (find_restaurants 0 0 10 0 60
        (.page ⟨"OK", [{ lat := some 0, lng := some 0 }], some "t"⟩)
        [.err] = .error .fetchFailed) ∧
    ∀ l : List Restaurant,
      find_restaurants 0 0 10 0 60
        (.page ⟨"OK", [{ lat := some 0, lng := some 0 }], some "t"⟩)
        [.err] ≠ .ok l := by
  refine ⟨rfl, ?_⟩
  intro l h
  rw [(rfl : find_restaurants 0 0 10 0 60
      (.page ⟨"OK", [{ lat := some 0, lng := some 0 }], some "t"⟩)
      [.err] = .error .fetchFailed)] at h
  exact Except.noConfusion h

/-- C3 amended: a continuation page that comes back with a non-success
status only ends pagination — the search returns the restaurants
accumulated so far (sorted); a transport error on a continuation request
instead propagates as the 500 fetch error (see the counterexample). -/
theorem C3_nonsuccess_status_graceful (lat lng : ℝ) (radius min_rating : ℚ)
    (max_results : ℕ) (results : List RawPlace) (tok : String)
    (resp2 : PageResponse) (rest : List FetchOutcome)
    (hbad : resp2.status ≠ "OK")
    (hlen : (processPlaces lat lng min_rating max_results []
      results).length < max_results) :
    find_restaurants lat lng radius min_rating max_results
        (.page ⟨"OK", results, some tok⟩) (.page resp2 :: rest) =
      .ok (List.insertionSort restLE
        (processPlaces lat lng min_rating max_results [] results)) := by
  have hunf : find_restaurants lat lng radius min_rating max_results
      (.page ⟨"OK", results, some tok⟩) (.page resp2 :: rest) =
      (match fetchPages lat lng min_rating max_results
          (.page resp2 :: rest) (some tok)
          (processPlaces lat lng min_rating max_results [] results) with
       | .error e => .error e
       | .ok restaurants => .ok (List.insertionSort restLE restaurants)) := by
    simp only [find_restaurants]
    rfl
  rw [hunf]
  have hfp : fetchPages lat lng min_rating max_results
      (.page resp2 :: rest) (some tok)
      (processPlaces lat lng min_rating max_results [] results) =
      .ok (processPlaces lat lng min_rating max_results [] results) := by
    have hunf2 : fetchPages lat lng min_rating max_results
        (.page resp2 :: rest) (some tok)
        (processPlaces lat lng min_rating max_results [] results) =
        (if max_results ≤ (processPlaces lat lng min_rating max_results []
            results).length then
          .ok (processPlaces lat lng min_rating max_results [] results)
         else if resp2.status = "OK" then
           fetchPages lat lng min_rating max_results rest
             resp2.next_page_token
             (processPlaces lat lng min_rating max_results
               (processPlaces lat lng min_rating max_results [] results)
               resp2.results)
         else .ok (processPlaces lat lng min_rating max_results []
           results)) := rfl
    rw [hunf2, if_neg (Nat.not_le.mpr hlen), if_neg hbad]
  rw [hfp]

/-- Witness for C3 amended: empty first page with a token, continuation
page with status "INVALID_REQUEST": the search returns the (empty)
accumulated list. -/
theorem C3_witness :
    ("INVALID_REQUEST" ≠ "OK") ∧
    (processPlaces 0 0 0 60 [] []).length < 60 ∧
    find_restaurants 0 0 10 0 60 (.page ⟨"OK", [], some "t"⟩)
        [.page ⟨"INVALID_REQUEST", [], none⟩] =
      .ok (List.insertionSort restLE (processPlaces 0 0 0 60 [] [])) :=
  ⟨by decide, by decide,
   C3_nonsuccess_status_graceful 0 0 10 0 60 [] "t"
     ⟨"INVALID_REQUEST", [], none⟩ [] (by decide) (by decide)⟩

/-! Concrete haversine evaluations for the sort-key analysis. -/

theorem calc_zero_ten :
    calculate_distance 0 0 0 10 = 3959 * (Real.pi / 18) := by
  have hpi := Real.pi_pos
  simp only [calculate_distance, pyRadians]
  rw [show ((0 : ℝ) * Real.pi / 180 - 0 * Real.pi / 180) / 2 = 0 by ring,
      show ((10 : ℝ) * Real.pi / 180 - 0 * Real.pi / 180) / 2 =
        Real.pi / 36 by ring,
      show (0 : ℝ) * Real.pi / 180 = 0 by ring]
  rw [Real.sin_zero, Real.cos_zero]
  have hnn : 0 ≤ Real.sin (Real.pi / 36) :=
    Real.sin_nonneg_of_nonneg_of_le_pi (by positivity) (by linarith)
  rw [show (0 : ℝ) ^ 2 + 1 * 1 * Real.sin (Real.pi / 36) ^ 2 =
        Real.sin (Real.pi / 36) ^ 2 by ring,
      Real.sqrt_sq hnn,
      Real.arcsin_sin (by linarith) (by linarith)]
  ring

theorem pyRound2_zero : pyRound2 0 = 0 := by
  unfold pyRound2
  norm_num

theorem pyRound2_dist_ten :
    pyRound2 (3959 * (Real.pi / 18)) = 69098 / 100 := by
  unfold pyRound2
  have h : round (3959 * (Real.pi / 18) * 100) = 69098 := by
    have h1 := Real.pi_gt_d6
    have h2 := Real.pi_lt_d6
    rw [round_eq, Int.floor_eq_iff]
    constructor
    · push_cast
      nlinarith
    · push_cast
      nlinarith
  rw [h]
  norm_num

theorem format_origin :
    format_restaurant_data 0 0 ⟨none, none, none, some 0, some 0, none⟩ =
      ⟨"", "Unknown", "Address not available", 0, 0, none, 0⟩ := by
  simp [format_restaurant_data, calculate_distance_self, pyRound2_zero]

theorem format_ten :
    format_restaurant_data 0 0 ⟨none, none, none, some 0, some 10, none⟩ =
      ⟨"", "Unknown", "Address not available", 0, 10, none, 69098 / 100⟩ := by
  simp [format_restaurant_data, calc_zero_ten, pyRound2_dist_ten]

/-- C2 at the failing input: searching from (0,0) over a page holding a
place at (0,10) (690.98 miles away) and a place exactly at the origin
(distance 0.0), the zero-distance restaurant takes the sort key 999
(Python `or` treats 0.0 as falsy) and is sorted after the farther one, so
the returned list [690.98, 0.0] violates the claimed ascending-distance
adjacency invariant. -/
theorem C2_zero_distance_sorted_last :
    ∃ out, find_restaurants 0 0 10 0 60
        (.page ⟨"OK", [⟨none, none, none, some 0, some 0, none⟩,
                       ⟨none, none, none, some 0, some 10, none⟩], none⟩) []
        = .ok out ∧
      out.map (fun r => r.distance_miles) = [69098 / 100, 0] ∧
      ¬ List.Chain' (fun r1 r2 : Restaurant =>
          r1.distance_miles < r2.distance_miles ∨
          (r1.distance_miles = r2.distance_miles ∧
            r1.rating.getD 0 ≥ r2.rating.getD 0)) out := by
  have h1 : find_restaurants 0 0 10 0 60
      (.page ⟨"OK", [⟨none, none, none, some 0, some 0, none⟩,
                     ⟨none, none, none, some 0, some 10, none⟩], none⟩) []
      = .ok (List.insertionSort restLE
        [format_restaurant_data 0 0 ⟨none, none, none, some 0, some 0, none⟩,
         format_restaurant_data 0 0
           ⟨none, none, none, some 0, some 10, none⟩]) := rfl
  rw [format_origin, format_ten] at h1
  have hnot : ¬ restLE
      (⟨"", "Unknown", "Address not available", 0, 0, none, 0⟩ : Restaurant)
      (⟨"", "Unknown", "Address not available", 0, 10, none,
        69098 / 100⟩ : Restaurant) := by
    norm_num [restLE, keyLE, sortKey]
  have hsort : List.insertionSort restLE
      [(⟨"", "Unknown", "Address not available", 0, 0, none, 0⟩ : Restaurant),
       ⟨"", "Unknown", "Address not available", 0, 10, none, 69098 / 100⟩] =
      [⟨"", "Unknown", "Address not available", 0, 10, none, 69098 / 100⟩,
       ⟨"", "Unknown", "Address not available", 0, 0, none, 0⟩] := by
    simp [List.insertionSort, List.orderedInsert, hnot]
  rw [hsort] at h1
  refine ⟨_, h1, rfl, ?_⟩
  simp only [List.chain'_cons, List.chain'_singleton, and_true]
  push_neg
  constructor
  · norm_num
  · intro h
    norm_num at h
